import Mathlib

/-!
# Obstacle cost evaluation of `base_local_planner`

A shallow embedding of `ObstacleCostFunction` from
`base_local_planner/src/obstacle_cost_function.cpp`.

Conventions of the embedding.

* `double` is idealised as a linearly ordered field `α`; the three libm
  calls the code makes (`sqrt`, `cos`, `sin`) are the fields of `CMath α`,
  so every definition is computable and every general theorem holds for
  all such functions.  Concrete examples are stated over `ℝ` with
  `Real.sqrt`, `Real.cos` and `Real.sin`.
* `Trajectory`, `Costmap2D` and `WorldModel` are declared outside the
  translated file; they are records holding exactly the members the code
  reads.
* `world_model_` is a pointer; it is `none` when it does not point to a
  world model, and dereferencing it then ends the computation with `none`.

The default `makePlan` methods of `nav_core::BaseGlobalPlanner`
(`nav_core/include/nav_core/base_global_planner.h`) are embedded in the
namespace `nav_core`.
-/

namespace nav_core

/-- The constants `status::OK` and `status::FAIL` of `nav_core/nav_status.h`,
which is not part of the translated files. -/
structure status where
  OK : Int
  FAIL : Int

/-- What a call of the four-argument `makePlan` leaves behind: the planner
object, the reference arguments `plan` and `custom_status`, and the returned
value. -/
structure MakePlanResult (σ P : Type) where
  self : σ
  plan : List P
  custom_status : Int
  return_value : Bool

/-- The default three-argument `BaseGlobalPlanner::makePlan` (lines 70-74):
it returns `false` and touches neither the planner nor `plan`.  The result is
the planner object, `plan` and the returned value. -/
def BaseGlobalPlanner.makePlan {σ P : Type} (self : σ) (_start _goal : P) (plan : List P) :
    σ × List P × Bool :=
  (self, plan, false)

/-- The default four-argument `BaseGlobalPlanner::makePlan` (lines 85-103).
`makePlan` is the three-argument method the virtual call of line 93 reaches
(the default one or an override of a plugin). -/
def BaseGlobalPlanner.makePlan4 {σ P : Type} (st : status)
    (makePlan : σ → P → P → List P → σ × List P × Bool)
    (self : σ) (start goal : P) (plan : List P) (_custom_status : Int) :
    MakePlanResult σ P :=
  match makePlan self start goal plan with
  | (self, plan, return_value) =>
    if return_value then
      { self := self, plan := plan, custom_status := st.OK, return_value := return_value }
    else
      { self := self, plan := plan, custom_status := st.FAIL, return_value := return_value }

end nav_core

namespace base_local_planner

/-- The libm functions called by the code. -/
structure CMath (α : Type) where
  sqrt : α → α
  cos : α → α
  sin : α → α

/-- The message type `geometry_msgs::Point`. -/
structure Point (α : Type) where
  x : α
  y : α
  z : α

/-- One pose of a trajectory, as delivered by `Trajectory::getPoint`. -/
structure Pose (α : Type) where
  x : α
  y : α
  th : α

/-- The members of `Trajectory` read by the cost function: the planar
velocity and the poses `getPoint 0 .. getPoint (getPointsSize - 1)`. -/
structure Trajectory (α : Type) where
  xv_ : α
  yv_ : α
  points : List (Pose α)

/-- The members of `costmap_2d::Costmap2D` used by the cost function.
`worldToMap` is `none` when the C++ method returns `false`; `getCost` is the
cell cost after the conversion `double(...)`. -/
structure Costmap2D (α : Type) where
  getInscribedRadius : α
  getCircumscribedRadius : α
  worldToMap : α → α → Option (Nat × Nat)
  getCost : Nat → Nat → α

/-- The collision primitive `WorldModel::footprintCost(position, footprint,
inscribed_radius, circumscribed_radius)`. -/
structure WorldModel (α : Type) where
  footprintCost : Point α → List (Point α) → α → α → α

/-- The members of `costmap_2d::Costmap2DROS` used by the constructor. -/
structure Costmap2DROS (α : Type) where
  getRobotFootprint : List (Point α)
  getCostmapCopy : Costmap2D α

/-- The data members of `ObstacleCostFunction`. -/
structure ObstacleCostFunction (α : Type) where
  costmap_ros_ : Option (Costmap2DROS α)
  footprint_spec_ : List (Point α)
  costmap_ : Costmap2D α
  world_model_ : Option (WorldModel α)
  max_trans_vel_ : α
  max_scaling_factor_ : α
  scaling_speed_ : α

variable {α : Type} [LinearOrderedField α]

/-- The function `std::max` on doubles: `(a < b) ? b : a`. -/
def stdMax (a b : α) : α := if a < b then b else a

/-- The constructor (lines 44-50).  `init` holds the state of the members a
constructor call starts from (a default `Costmap2D`, an empty footprint
vector, and whatever the members without an initialiser hold);
`CostmapModel` is the constructor of the world model over a costmap. -/
def ObstacleCostFunction.new (CostmapModel : Costmap2D α → WorldModel α)
    (init : ObstacleCostFunction α) (costmap_ros : Option (Costmap2DROS α)) :
    ObstacleCostFunction α :=
  match costmap_ros with
  | some ros =>
    { init with
      costmap_ros_ := some ros
      footprint_spec_ := ros.getRobotFootprint
      costmap_ := ros.getCostmapCopy
      world_model_ := some (CostmapModel ros.getCostmapCopy) }
  | none => { init with costmap_ros_ := none }

/-- The method `setParams` (lines 59-64). -/
def ObstacleCostFunction.setParams (self : ObstacleCostFunction α)
    (max_trans_vel max_scaling_factor scaling_speed : α) : ObstacleCostFunction α :=
  { self with
    max_trans_vel_ := max_trans_vel
    max_scaling_factor_ := max_scaling_factor
    scaling_speed_ := scaling_speed }

/-- The method `getScalingFactor` (lines 91-103). -/
def getScalingFactor (M : CMath α) (traj : Trajectory α)
    (scaling_speed max_trans_vel max_scaling_factor : α) : α :=
  let vmag := M.sqrt (traj.xv_ * traj.xv_ + traj.yv_ * traj.yv_)
  if vmag > scaling_speed then
    let ratio := (vmag - scaling_speed) / (max_trans_vel - scaling_speed)
    max_scaling_factor * ratio + 1
  else
    1

/-- The vertex `new_pt` of lines 120-122: the footprint vertex `v` scaled,
rotated by the heading and moved to the pose. -/
def newPt (x y scale cos_th sin_th : α) (v : Point α) : Point α :=
  { x := x + (scale * v.x * cos_th - scale * v.y * sin_th)
    y := y + (scale * v.x * sin_th + scale * v.y * cos_th)
    z := 0 }

/-- The loop of `footprintCost` (lines 119-143), started at the vertices
still to visit, with the polygon `scaled_oriented_footprint` built so far and
the running `occ_cost`. -/
def footprintCostLoop (x y scale cos_th sin_th : α) (costmap : Costmap2D α)
    (world_model : Option (WorldModel α)) :
    List (Point α) → List (Point α) → α → Option α
  | [], _, occ_cost => some occ_cost
  | v :: rest, scaled_oriented_footprint, occ_cost =>
    let new_pt := newPt x y scale cos_th sin_th v
    let scaled_oriented_footprint := scaled_oriented_footprint ++ [new_pt]
    let robot_position : Point α := { x := x, y := y, z := 0 }
    match world_model with
    | none => none
    | some wm =>
      let footprint_cost := wm.footprintCost robot_position scaled_oriented_footprint
        costmap.getInscribedRadius costmap.getCircumscribedRadius
      if footprint_cost < 0 then
        some (-6)
      else
        match costmap.worldToMap x y with
        | none => some (-7)
        | some (cell_x, cell_y) =>
          footprintCostLoop x y scale cos_th sin_th costmap world_model rest
            scaled_oriented_footprint
            (stdMax (stdMax occ_cost footprint_cost) (costmap.getCost cell_x cell_y))

/-- The method `footprintCost` (lines 105-146). -/
def footprintCost (M : CMath α) (x y th scale : α) (footprint_spec : List (Point α))
    (costmap : Costmap2D α) (world_model : Option (WorldModel α)) : Option α :=
  let cos_th := M.cos th
  let sin_th := M.sin th
  footprintCostLoop x y scale cos_th sin_th costmap world_model footprint_spec [] 0

/-- The complete polygon `scaled_oriented_footprint` of a pose: every vertex
of the footprint scaled, rotated and moved (what the vector holds once all
vertices have been pushed). -/
def scaledOrientedFootprint (M : CMath α) (x y th scale : α)
    (footprint_spec : List (Point α)) : List (Point α) :=
  footprint_spec.map (newPt x y scale (M.cos th) (M.sin th))

/-- The loop of `scoreTrajectory` (lines 80-87) over the poses still to
visit: each pose overwrites `cost`. -/
def scoreTrajectoryLoop (M : CMath α) (self : ObstacleCostFunction α) (scale : α) :
    List (Pose α) → α → Option α
  | [], cost => some cost
  | p :: rest, _ =>
    match footprintCost M p.x p.y p.th scale self.footprint_spec_ self.costmap_
        self.world_model_ with
    | none => none
    | some cost => scoreTrajectoryLoop M self scale rest cost

/-- The method `scoreTrajectory` (lines 75-89). -/
def scoreTrajectory (M : CMath α) (self : ObstacleCostFunction α) (traj : Trajectory α) :
    Option α :=
  let scale := getScalingFactor M traj self.scaling_speed_ self.max_trans_vel_
    self.max_scaling_factor_
  scoreTrajectoryLoop M self scale traj.points 0

/-! ### Sample collaborators used by the concrete examples -/

/-- A grid that maps exactly the poses with `0 ≤ x`, all to cell `(0, 0)`,
and whose cells all cost `c`; both radii are `0`. -/
def halfPlaneGrid (c : α) : Costmap2D α :=
  { getInscribedRadius := 0
    getCircumscribedRadius := 0
    worldToMap := fun x _ => if x < 0 then none else some (0, 0)
    getCost := fun _ _ => c }

/-- A collision primitive that answers `v` for every polygon. -/
def constModel (v : α) : WorldModel α :=
  { footprintCost := fun _ _ _ _ => v }

/-- A collision primitive that reports a collision (`-1`) when the robot
position has `1 < x` and answers `0` otherwise. -/
def farModel : WorldModel α :=
  { footprintCost := fun robot_position _ _ _ => if 1 < robot_position.x then -1 else 0 }

/-- A collision primitive that answers `3` for a polygon of fewer than two
vertices and `-1` (collision) for every other polygon. -/
def edgeModel : WorldModel α :=
  { footprintCost := fun _ footprint _ _ => if footprint.length < 2 then 3 else -1 }

/-- A collision primitive that answers `3` for a polygon of fewer than two
vertices and `1` for every other polygon. -/
def taperModel : WorldModel α :=
  { footprintCost := fun _ footprint _ _ => if footprint.length < 2 then 3 else 1 }

/-- A collision primitive that answers the `x` coordinate of the first
vertex of the polygon (`0` for the empty polygon). -/
def reachModel : WorldModel α :=
  { footprintCost := fun _ footprint _ _ =>
      match footprint with
      | [] => 0
      | v :: _ => v.x }

/-- An evaluator over `halfPlaneGrid c` with the parameters
`max_trans_vel = 1`, `max_scaling_factor = 2`, `scaling_speed = 3/10`. -/
def sampleEvaluator (footprint : List (Point α)) (c : α) (wm : Option (WorldModel α)) :
    ObstacleCostFunction α :=
  { costmap_ros_ := none
    footprint_spec_ := footprint
    costmap_ := halfPlaneGrid c
    world_model_ := wm
    max_trans_vel_ := 1
    max_scaling_factor_ := 2
    scaling_speed_ := 3 / 10 }

/-! ### Auxiliary lemmas -/

theorem stdMax_eq_max (a b : α) : stdMax a b = max a b := by
  unfold stdMax
  split_ifs with h
  · exact (max_eq_right h.le).symm
  · exact (max_eq_left (not_lt.mp h)).symm

/-- Without a world model the loop fails as soon as there is a vertex. -/
theorem footprintCostLoop_none (x y scale c s : α) (cm : Costmap2D α)
    (rest poly : List (Point α)) (occ : α) :
    footprintCostLoop x y scale c s cm none rest poly occ
      = if rest.isEmpty then some occ else none := by
  cases rest with
  | nil => simp [footprintCostLoop]
  | cons v rest => simp [footprintCostLoop]

/-- With a world model the loop returns a value, which is one of the two
sentinels or at least the running cost it started from. -/
theorem footprintCostLoop_some (x y scale c s : α) (cm : Costmap2D α) (wm : WorldModel α)
    (rest : List (Point α)) :
    ∀ (poly : List (Point α)) (occ : α),
      ∃ v, footprintCostLoop x y scale c s cm (some wm) rest poly occ = some v
        ∧ (v = -6 ∨ v = -7 ∨ occ ≤ v) := by
  induction rest with
  | nil => intro poly occ; exact ⟨occ, by simp [footprintCostLoop], Or.inr (Or.inr le_rfl)⟩
  | cons v rest ih =>
    intro poly occ
    simp only [footprintCostLoop]
    split_ifs with hneg
    · exact ⟨-6, rfl, Or.inl rfl⟩
    · cases hmap : cm.worldToMap x y with
      | none => exact ⟨-7, rfl, Or.inr (Or.inl rfl)⟩
      | some cell =>
        obtain ⟨cx, cy⟩ := cell
        obtain ⟨w, hw, hcases⟩ := ih (poly ++ [newPt x y scale c s v])
          (stdMax (stdMax occ (wm.footprintCost ⟨x, y, 0⟩ (poly ++ [newPt x y scale c s v])
            cm.getInscribedRadius cm.getCircumscribedRadius)) (cm.getCost cx cy))
        refine ⟨w, hw, ?_⟩
        rcases hcases with h | h | h
        · exact Or.inl h
        · exact Or.inr (Or.inl h)
        · refine Or.inr (Or.inr (le_trans ?_ h))
          rw [stdMax_eq_max, stdMax_eq_max]
          exact le_trans (le_max_left _ _) (le_max_left _ _)

/-- Whether `footprintCost` returns a value does not depend on the pose. -/
theorem footprintCost_isSome_pose (M : CMath α) (scale : α) (fp : List (Point α))
    (cm : Costmap2D α) (wm : Option (WorldModel α)) (x y th x2 y2 th2 : α) :
    (footprintCost M x y th scale fp cm wm).isSome
      = (footprintCost M x2 y2 th2 scale fp cm wm).isSome := by
  cases wm with
  | none => simp [footprintCost, footprintCostLoop_none]
  | some wm =>
    obtain ⟨v, hv, _⟩ := footprintCostLoop_some x y scale (M.cos th) (M.sin th) cm wm fp [] 0
    obtain ⟨w, hw, _⟩ := footprintCostLoop_some x2 y2 scale (M.cos th2) (M.sin th2) cm wm fp [] 0
    simp [footprintCost, hv, hw]

/-- The loop of `scoreTrajectory` over a non-empty list of poses returns what
`footprintCost` yields for the last of them. -/
theorem scoreTrajectoryLoop_getLast (M : CMath α) (self : ObstacleCostFunction α) (scale : α)
    (pts : List (Pose α)) (h : pts ≠ []) :
    ∀ cost : α, scoreTrajectoryLoop M self scale pts cost
      = footprintCost M (pts.getLast h).x (pts.getLast h).y (pts.getLast h).th scale
          self.footprint_spec_ self.costmap_ self.world_model_ := by
  induction pts with
  | nil => exact absurd rfl h
  | cons p rest ih =>
    intro cost
    cases rest with
    | nil =>
      simp only [scoreTrajectoryLoop, List.getLast_singleton]
      cases footprintCost M p.x p.y p.th scale self.footprint_spec_ self.costmap_
        self.world_model_ <;> rfl
    | cons q rest =>
      have hne : q :: rest ≠ [] := List.cons_ne_nil q rest
      rw [List.getLast_cons hne]
      simp only [scoreTrajectoryLoop] at ih ⊢
      cases hp : footprintCost M p.x p.y p.th scale self.footprint_spec_ self.costmap_
        self.world_model_ with
      | none =>
        have hs := footprintCost_isSome_pose M scale self.footprint_spec_ self.costmap_
          self.world_model_ p.x p.y p.th ((q :: rest).getLast hne).x
          ((q :: rest).getLast hne).y ((q :: rest).getLast hne).th
        rw [hp] at hs
        simp only [Option.isSome_none] at hs
        cases hl : footprintCost M ((q :: rest).getLast hne).x ((q :: rest).getLast hne).y
          ((q :: rest).getLast hne).th scale self.footprint_spec_ self.costmap_
          self.world_model_ with
        | none => rfl
        | some w => rw [hl] at hs; simp at hs
      | some c => exact ih hne c

/-- When the origin maps to a cell and the primitive reports a collision for
the polygon made of the vertices built so far and all remaining ones, the
loop returns `-6`. -/
theorem footprintCostLoop_collision_full (x y scale c s : α) (cm : Costmap2D α)
    (wm : WorldModel α) (cell : Nat × Nat) (hmap : cm.worldToMap x y = some cell)
    (rest : List (Point α)) :
    ∀ (poly : List (Point α)) (occ : α), rest ≠ [] →
      wm.footprintCost ⟨x, y, 0⟩ (poly ++ rest.map (newPt x y scale c s))
        cm.getInscribedRadius cm.getCircumscribedRadius < 0 →
      footprintCostLoop x y scale c s cm (some wm) rest poly occ = some (-6) := by
  induction rest with
  | nil => intro poly occ h; exact absurd rfl h
  | cons v rest ih =>
    intro poly occ _ hcol
    simp only [footprintCostLoop]
    split_ifs with hneg
    · rfl
    · rw [hmap]
      obtain ⟨cx, cy⟩ := cell
      simp only
      cases rest with
      | nil => exact absurd hcol hneg
      | cons w rest =>
        apply ih _ _ (List.cons_ne_nil w rest)
        simpa [List.append_assoc] using hcol

/-- When the origin maps to the cell `(cx, cy)` and the primitive is
non-negative on every polygon the loop still has to check, the loop returns
the maximum of the running cost, the cell cost and the largest of the
primitive's values on those polygons. -/
theorem footprintCostLoop_running_max (x y scale c s : α) (cm : Costmap2D α)
    (wm : WorldModel α) (cx cy : Nat) (hmap : cm.worldToMap x y = some (cx, cy))
    (rest : List (Point α)) :
    ∀ (poly : List (Point α)) (occ : α), rest ≠ [] →
      (∀ j, 1 ≤ j → j ≤ rest.length →
        0 ≤ wm.footprintCost ⟨x, y, 0⟩ (poly ++ (rest.map (newPt x y scale c s)).take j)
          cm.getInscribedRadius cm.getCircumscribedRadius) →
      ∃ m, (∃ j, 1 ≤ j ∧ j ≤ rest.length ∧
            wm.footprintCost ⟨x, y, 0⟩ (poly ++ (rest.map (newPt x y scale c s)).take j)
              cm.getInscribedRadius cm.getCircumscribedRadius = m)
        ∧ (∀ j, 1 ≤ j → j ≤ rest.length →
            wm.footprintCost ⟨x, y, 0⟩ (poly ++ (rest.map (newPt x y scale c s)).take j)
              cm.getInscribedRadius cm.getCircumscribedRadius ≤ m)
        ∧ footprintCostLoop x y scale c s cm (some wm) rest poly occ
            = some (max (max occ m) (cm.getCost cx cy)) := by
  induction rest with
  | nil => intro poly occ h; exact absurd rfl h
  | cons v rest ih =>
    intro poly occ _ hfree
    have h1 := hfree 1 le_rfl (by simp)
    simp only [List.map_cons, List.take_succ_cons, List.take_zero] at h1
    simp only [footprintCostLoop]
    rw [if_neg (not_lt.mpr h1), hmap]
    simp only [stdMax_eq_max]
    cases rest with
    | nil =>
      refine ⟨_, ⟨1, le_rfl, by simp, rfl⟩, ?_, ?_⟩
      · intro j hj1 hj2
        have : j = 1 := le_antisymm (by simpa using hj2) hj1
        subst this
        exact le_rfl
      · simp [footprintCostLoop]
    | cons w rest =>
      have hfree2 : ∀ j, 1 ≤ j → j ≤ (w :: rest).length →
          0 ≤ wm.footprintCost ⟨x, y, 0⟩
            ((poly ++ [newPt x y scale c s v])
              ++ ((w :: rest).map (newPt x y scale c s)).take j)
            cm.getInscribedRadius cm.getCircumscribedRadius := by
        intro j hj1 hj2
        have := hfree (j + 1) (by omega) (by simpa using hj2)
        simpa [List.append_assoc] using this
      obtain ⟨m, ⟨j0, hj01, hj02, hj0⟩, hub, hres⟩ :=
        ih (poly ++ [newPt x y scale c s v])
          (max (max occ (wm.footprintCost ⟨x, y, 0⟩ (poly ++ [newPt x y scale c s v])
            cm.getInscribedRadius cm.getCircumscribedRadius)) (cm.getCost cx cy))
          (List.cons_ne_nil w rest) hfree2
      refine ⟨max (wm.footprintCost ⟨x, y, 0⟩ (poly ++ [newPt x y scale c s v])
        cm.getInscribedRadius cm.getCircumscribedRadius) m, ?_, ?_, ?_⟩
      · rcases le_total m (wm.footprintCost ⟨x, y, 0⟩ (poly ++ [newPt x y scale c s v])
          cm.getInscribedRadius cm.getCircumscribedRadius) with hle | hle
        · exact ⟨1, le_rfl, by simp, by simp [max_eq_left hle]⟩
        · refine ⟨j0 + 1, by omega, by simpa using hj02, ?_⟩
          rw [max_eq_right hle, ← hj0]
          simp [List.append_assoc]
      · intro j hj1 hj2
        rcases Nat.eq_or_lt_of_le hj1 with hj | hj
        · subst hj
          simp only [List.map_cons, List.take_succ_cons, List.take_zero]
          exact le_max_left _ _
        · obtain ⟨i, rfl⟩ : ∃ i, j = i + 1 := ⟨j - 1, by omega⟩
          have := hub i (by omega) (by simpa using hj2)
          refine le_trans ?_ (le_max_right _ _)
          simpa [List.append_assoc] using this
      · rw [hres]
        congr 1
        simp only [max_assoc, max_left_comm, max_comm, max_self]

/-- In free space (origin on the map, every cell cost `0`, primitive `0`
everywhere) the loop keeps the running cost at `0`. -/
theorem footprintCostLoop_free (x y scale c s : α) (cm : Costmap2D α)
    (wm : WorldModel α) (cell : Nat × Nat) (hmap : cm.worldToMap x y = some cell)
    (hcost : ∀ cx cy, cm.getCost cx cy = 0)
    (hprim : ∀ pos poly r1 r2, wm.footprintCost pos poly r1 r2 = 0)
    (rest : List (Point α)) :
    ∀ poly : List (Point α),
      footprintCostLoop x y scale c s cm (some wm) rest poly 0 = some 0 := by
  induction rest with
  | nil => intro poly; rfl
  | cons v rest ih =>
    intro poly
    simp only [footprintCostLoop, hprim, lt_irrefl, if_false, hmap, hcost, stdMax]
    exact ih _

/-- The value of `getScalingFactor` when the branch is not taken. -/
theorem getScalingFactor_of_le (M : CMath α) (traj : Trajectory α)
    (scaling_speed max_trans_vel max_scaling_factor : α)
    (h : M.sqrt (traj.xv_ * traj.xv_ + traj.yv_ * traj.yv_) ≤ scaling_speed) :
    getScalingFactor M traj scaling_speed max_trans_vel max_scaling_factor = 1 := by
  unfold getScalingFactor
  exact if_neg (not_lt.mpr h)

/-- The value of `getScalingFactor` when the branch is taken. -/
theorem getScalingFactor_of_lt (M : CMath α) (traj : Trajectory α)
    (scaling_speed max_trans_vel max_scaling_factor : α)
    (h : scaling_speed < M.sqrt (traj.xv_ * traj.xv_ + traj.yv_ * traj.yv_)) :
    getScalingFactor M traj scaling_speed max_trans_vel max_scaling_factor
      = max_scaling_factor
          * ((M.sqrt (traj.xv_ * traj.xv_ + traj.yv_ * traj.yv_) - scaling_speed)
            / (max_trans_vel - scaling_speed)) + 1 := by
  unfold getScalingFactor
  exact if_pos h

/-- The magnitude of a velocity `(a, 0)` with `0 ≤ a` is `a`. -/
theorem sqrt_velocity_along_x (a : ℝ) (h : 0 ≤ a) : Real.sqrt (a * a + 0 * 0) = a := by
  rw [mul_zero, add_zero, Real.sqrt_mul_self h]

/-- Once the computation has failed, the remaining poses leave it failed. -/
theorem foldl_bind_none {β γ : Type} (f : β → Option γ) (pts : List β) :
    pts.foldl (fun acc p => acc.bind (fun _ => f p)) none = none := by
  induction pts with
  | nil => rfl
  | cons p rest ih => simpa [List.foldl] using ih

/-- The loop of `scoreTrajectory` evaluates `footprintCost` at every pose in
order, with the one scale it was given, each result replacing the cost. -/
theorem scoreTrajectoryLoop_eq_foldl (M : CMath α) (self : ObstacleCostFunction α) (scale : α)
    (pts : List (Pose α)) :
    ∀ cost : α, scoreTrajectoryLoop M self scale pts cost
      = pts.foldl (fun acc p => acc.bind (fun _ =>
          footprintCost M p.x p.y p.th scale self.footprint_spec_ self.costmap_
            self.world_model_)) (some cost) := by
  induction pts with
  | nil => intro cost; rfl
  | cons p rest ih =>
    intro cost
    simp only [scoreTrajectoryLoop, List.foldl, Option.some_bind]
    cases hp : footprintCost M p.x p.y p.th scale self.footprint_spec_ self.costmap_
      self.world_model_ with
    | none =>
      exact (foldl_bind_none (fun p : Pose α => footprintCost M p.x p.y p.th scale
        self.footprint_spec_ self.costmap_ self.world_model_) rest).symm
    | some c => exact ih c

/-- When the origin maps to a cell the loop returns `-6` or a value that is
at least the running cost it started from. -/
theorem footprintCostLoop_mapped (x y scale c s : α) (cm : Costmap2D α) (wm : WorldModel α)
    (cell : Nat × Nat) (hmap : cm.worldToMap x y = some cell) (rest : List (Point α)) :
    ∀ (poly : List (Point α)) (occ : α),
      ∃ v, footprintCostLoop x y scale c s cm (some wm) rest poly occ = some v
        ∧ (v = -6 ∨ occ ≤ v) := by
  induction rest with
  | nil => intro poly occ; exact ⟨occ, rfl, Or.inr le_rfl⟩
  | cons v rest ih =>
    intro poly occ
    simp only [footprintCostLoop]
    split_ifs with hneg
    · exact ⟨-6, rfl, Or.inl rfl⟩
    · rw [hmap]
      obtain ⟨cx, cy⟩ := cell
      obtain ⟨w, hw, hcases⟩ := ih (poly ++ [newPt x y scale c s v])
        (stdMax (stdMax occ (wm.footprintCost ⟨x, y, 0⟩ (poly ++ [newPt x y scale c s v])
          cm.getInscribedRadius cm.getCircumscribedRadius)) (cm.getCost cx cy))
      refine ⟨w, hw, ?_⟩
      rcases hcases with h | h
      · exact Or.inl h
      · refine Or.inr (le_trans ?_ h)
        rw [stdMax_eq_max, stdMax_eq_max]
        exact le_trans (le_max_left _ _) (le_max_left _ _)

/-! ### The claims -/

/-- C1: for a non-empty trajectory `scoreTrajectory` returns exactly what
`footprintCost` yields for the last pose (with the scale of the whole
trajectory, the stored footprint and the grid); hence two trajectories with
the same velocity and the same last pose score the same, whatever their
earlier poses are. -/
theorem scoreTrajectory_eq_footprintCost_last (M : CMath α) (self : ObstacleCostFunction α)
    (traj : Trajectory α) (h : traj.points ≠ []) :
    scoreTrajectory M self traj
        = footprintCost M (traj.points.getLast h).x (traj.points.getLast h).y
            (traj.points.getLast h).th
            (getScalingFactor M traj self.scaling_speed_ self.max_trans_vel_
              self.max_scaling_factor_)
            self.footprint_spec_ self.costmap_ self.world_model_
      ∧ ∀ (other : Trajectory α) (h2 : other.points ≠ []),
          other.xv_ = traj.xv_ → other.yv_ = traj.yv_ →
          other.points.getLast h2 = traj.points.getLast h →
          scoreTrajectory M self other = scoreTrajectory M self traj := by
  have key : ∀ (t : Trajectory α) (ht : t.points ≠ []), scoreTrajectory M self t
      = footprintCost M (t.points.getLast ht).x (t.points.getLast ht).y
          (t.points.getLast ht).th
          (getScalingFactor M t self.scaling_speed_ self.max_trans_vel_
            self.max_scaling_factor_)
          self.footprint_spec_ self.costmap_ self.world_model_ := by
    intro t ht
    unfold scoreTrajectory
    exact scoreTrajectoryLoop_getLast M self _ t.points ht 0
  refine ⟨key traj h, ?_⟩
  intro other h2 hx hy hlast
  rw [key other h2, key traj h, hlast]
  simp only [getScalingFactor, hx, hy]

/-- Witness of C1: a trajectory of two poses over the sample grid scores what
`footprintCost` yields for its second pose. -/
theorem scoreTrajectory_eq_footprintCost_last_witness :
    ([⟨-1, 0, 0⟩, ⟨1, 0, 0⟩] : List (Pose ℝ)) ≠ []
      ∧ scoreTrajectory ⟨Real.sqrt, Real.cos, Real.sin⟩
          (sampleEvaluator [⟨0, 0, 0⟩] 0 (some (constModel 0)))
          ⟨0, 0, [⟨-1, 0, 0⟩, ⟨1, 0, 0⟩]⟩
        = footprintCost ⟨Real.sqrt, Real.cos, Real.sin⟩ 1 0 0
            (getScalingFactor ⟨Real.sqrt, Real.cos, Real.sin⟩
              ⟨0, 0, [⟨-1, 0, 0⟩, ⟨1, 0, 0⟩]⟩ (3 / 10) 1 2)
            [⟨0, 0, 0⟩] (halfPlaneGrid 0) (some (constModel 0)) :=
  ⟨by simp, (scoreTrajectory_eq_footprintCost_last ⟨Real.sqrt, Real.cos, Real.sin⟩
    (sampleEvaluator [⟨0, 0, 0⟩] 0 (some (constModel 0)))
    ⟨0, 0, [⟨-1, 0, 0⟩, ⟨1, 0, 0⟩]⟩ (by simp)).1⟩

/-- C2 (evaluation of the code at the failing inputs): the first pose of the
trajectory yields the off-map sentinel `-7` (respectively the collision
sentinel `-6`) from the per-pose evaluation, the second pose yields `0`, and
`scoreTrajectory` returns `0`, not the sentinel. -/
theorem scoreTrajectory_overwrites_sentinel :
    (footprintCost ⟨Real.sqrt, Real.cos, Real.sin⟩ (-1) 0 0 1 [⟨0, 0, 0⟩]
          (halfPlaneGrid (0 : ℝ)) (some (constModel 0)) = some (-7)
      ∧ scoreTrajectory ⟨Real.sqrt, Real.cos, Real.sin⟩
          (sampleEvaluator [⟨0, 0, 0⟩] (0 : ℝ) (some (constModel 0)))
          ⟨0, 0, [⟨-1, 0, 0⟩, ⟨1, 0, 0⟩]⟩ = some 0)
    ∧ (footprintCost ⟨Real.sqrt, Real.cos, Real.sin⟩ 2 0 0 1 [⟨0, 0, 0⟩]
          (halfPlaneGrid (0 : ℝ)) (some farModel) = some (-6)
      ∧ scoreTrajectory ⟨Real.sqrt, Real.cos, Real.sin⟩
          (sampleEvaluator [⟨0, 0, 0⟩] (0 : ℝ) (some farModel))
          ⟨0, 0, [⟨2, 0, 0⟩, ⟨1, 0, 0⟩]⟩ = some 0) := by
  refine ⟨⟨?_, ?_⟩, ?_, ?_⟩ <;>
    norm_num [scoreTrajectory, scoreTrajectoryLoop, footprintCost, footprintCostLoop,
      sampleEvaluator, halfPlaneGrid, constModel, farModel, getScalingFactor, stdMax, newPt]

/-- C3: with a world model in place `scoreTrajectory` returns a value, and
that value is `-6`, `-7` or non-negative, for every trajectory, footprint,
grid (whatever its cell costs), collision primitive and parameters. -/
theorem scoreTrajectory_sentinel_or_nonneg (M : CMath α) (self : ObstacleCostFunction α)
    (traj : Trajectory α) (wm : WorldModel α) (hwm : self.world_model_ = some wm) :
    ∃ v, scoreTrajectory M self traj = some v ∧ (v = -6 ∨ v = -7 ∨ 0 ≤ v) := by
  unfold scoreTrajectory
  by_cases h : traj.points = []
  · rw [h]
    exact ⟨0, rfl, Or.inr (Or.inr le_rfl)⟩
  · rw [scoreTrajectoryLoop_getLast M self _ traj.points h 0, hwm]
    exact footprintCostLoop_some _ _ _ _ _ _ wm _ [] 0

/-- Witness of C3: a collision-free pose over a cell of cost `100` scores a
value that is one of the sentinels or non-negative. -/
theorem scoreTrajectory_sentinel_or_nonneg_witness :
    (sampleEvaluator [⟨1, 0, 0⟩] (100 : ℝ) (some (constModel 5))).world_model_
        = some (constModel 5)
      ∧ ∃ v : ℝ, scoreTrajectory ⟨Real.sqrt, Real.cos, Real.sin⟩
          (sampleEvaluator [⟨1, 0, 0⟩] 100 (some (constModel 5))) ⟨0, 0, [⟨1, 0, 0⟩]⟩ = some v
        ∧ (v = -6 ∨ v = -7 ∨ 0 ≤ v) :=
  ⟨rfl, scoreTrajectory_sentinel_or_nonneg ⟨Real.sqrt, Real.cos, Real.sin⟩
    (sampleEvaluator [⟨1, 0, 0⟩] 100 (some (constModel 5))) ⟨0, 0, [⟨1, 0, 0⟩]⟩
    (constModel 5) rfl⟩

/-- C4 (counterexample): the footprint has two vertices, the primitive reports
a collision for the complete transformed polygon of the only pose, the pose
is off the map, and `scoreTrajectory` returns `-7`, not `-6`. -/
theorem scoreTrajectory_collision_final_pose_counterexample :
    (edgeModel : WorldModel ℝ).footprintCost ⟨-1, 0, 0⟩
        (scaledOrientedFootprint ⟨Real.sqrt, Real.cos, Real.sin⟩ (-1) 0 0
          (getScalingFactor ⟨Real.sqrt, Real.cos, Real.sin⟩ ⟨0, 0, [⟨-1, 0, 0⟩]⟩ (3 / 10) 1 2)
          [⟨1, 0, 0⟩, ⟨0, 1, 0⟩]) 0 0 < 0
      ∧ scoreTrajectory ⟨Real.sqrt, Real.cos, Real.sin⟩
          (sampleEvaluator [⟨1, 0, 0⟩, ⟨0, 1, 0⟩] (0 : ℝ) (some edgeModel))
          ⟨0, 0, [⟨-1, 0, 0⟩]⟩ = some (-7)
      ∧ scoreTrajectory ⟨Real.sqrt, Real.cos, Real.sin⟩
          (sampleEvaluator [⟨1, 0, 0⟩, ⟨0, 1, 0⟩] (0 : ℝ) (some edgeModel))
          ⟨0, 0, [⟨-1, 0, 0⟩]⟩ ≠ some (-6) := by
  refine ⟨?_, ?_, ?_⟩ <;>
    norm_num [scoreTrajectory, scoreTrajectoryLoop, footprintCost, footprintCostLoop,
      sampleEvaluator, halfPlaneGrid, edgeModel, getScalingFactor, stdMax, newPt,
      scaledOrientedFootprint]

/-- C4 (amended): for a non-empty trajectory and a non-empty footprint, if the
origin of the final pose maps to a grid cell and the primitive returns a
negative value for the complete scaled, oriented footprint of the final pose,
`scoreTrajectory` returns exactly `-6`, whatever the earlier poses are. -/
theorem scoreTrajectory_collision_final_pose (M : CMath α) (self : ObstacleCostFunction α)
    (traj : Trajectory α) (wm : WorldModel α) (cell : Nat × Nat)
    (h : traj.points ≠ []) (hwm : self.world_model_ = some wm)
    (hfp : self.footprint_spec_ ≠ [])
    (hmap : self.costmap_.worldToMap (traj.points.getLast h).x (traj.points.getLast h).y
      = some cell)
    (hcol : wm.footprintCost ⟨(traj.points.getLast h).x, (traj.points.getLast h).y, 0⟩
      (scaledOrientedFootprint M (traj.points.getLast h).x (traj.points.getLast h).y
        (traj.points.getLast h).th
        (getScalingFactor M traj self.scaling_speed_ self.max_trans_vel_
          self.max_scaling_factor_) self.footprint_spec_)
      self.costmap_.getInscribedRadius self.costmap_.getCircumscribedRadius < 0) :
    scoreTrajectory M self traj = some (-6) := by
  unfold scoreTrajectory
  rw [scoreTrajectoryLoop_getLast M self _ traj.points h 0, hwm]
  unfold footprintCost
  exact footprintCostLoop_collision_full _ _ _ _ _ _ wm cell hmap _ [] 0 hfp
    (by simpa [scaledOrientedFootprint] using hcol)

/-- Witness of C4 (amended): two poses, the last one on the map, a footprint
of two vertices and a primitive that reports a collision for the complete
polygon: the score is `-6`. -/
theorem scoreTrajectory_collision_final_pose_witness :
    (halfPlaneGrid (0 : ℝ)).worldToMap 1 0 = some (0, 0)
      ∧ (edgeModel : WorldModel ℝ).footprintCost ⟨1, 0, 0⟩
          (scaledOrientedFootprint ⟨Real.sqrt, Real.cos, Real.sin⟩ 1 0 0
            (getScalingFactor ⟨Real.sqrt, Real.cos, Real.sin⟩
              ⟨0, 0, [⟨-1, 0, 0⟩, ⟨1, 0, 0⟩]⟩ (3 / 10) 1 2)
            [⟨1, 0, 0⟩, ⟨0, 1, 0⟩]) 0 0 < 0
      ∧ scoreTrajectory ⟨Real.sqrt, Real.cos, Real.sin⟩
          (sampleEvaluator [⟨1, 0, 0⟩, ⟨0, 1, 0⟩] (0 : ℝ) (some edgeModel))
          ⟨0, 0, [⟨-1, 0, 0⟩, ⟨1, 0, 0⟩]⟩ = some (-6) :=
  ⟨by norm_num [halfPlaneGrid],
   by norm_num [edgeModel, scaledOrientedFootprint],
   scoreTrajectory_collision_final_pose ⟨Real.sqrt, Real.cos, Real.sin⟩
    (sampleEvaluator [⟨1, 0, 0⟩, ⟨0, 1, 0⟩] (0 : ℝ) (some edgeModel))
    ⟨0, 0, [⟨-1, 0, 0⟩, ⟨1, 0, 0⟩]⟩ edgeModel (0, 0) (by simp) rfl
    (by simp [sampleEvaluator])
    (by norm_num [sampleEvaluator, halfPlaneGrid])
    (by norm_num [sampleEvaluator, halfPlaneGrid, edgeModel, scaledOrientedFootprint])⟩

/-- C5 (counterexample): the only pose is off the map, the primitive reports a
collision for the one-vertex polygon, and `scoreTrajectory` returns `-6`, not
`-7`. -/
theorem scoreTrajectory_off_map_final_pose_counterexample :
    (halfPlaneGrid (0 : ℝ)).worldToMap (-1) 0 = none
      ∧ scoreTrajectory ⟨Real.sqrt, Real.cos, Real.sin⟩
          (sampleEvaluator [⟨1, 0, 0⟩] (0 : ℝ) (some (constModel (-1))))
          ⟨0, 0, [⟨-1, 0, 0⟩]⟩ = some (-6)
      ∧ scoreTrajectory ⟨Real.sqrt, Real.cos, Real.sin⟩
          (sampleEvaluator [⟨1, 0, 0⟩] (0 : ℝ) (some (constModel (-1))))
          ⟨0, 0, [⟨-1, 0, 0⟩]⟩ ≠ some (-7) := by
  refine ⟨?_, ?_, ?_⟩ <;>
    norm_num [scoreTrajectory, scoreTrajectoryLoop, footprintCost, footprintCostLoop,
      sampleEvaluator, halfPlaneGrid, constModel, getScalingFactor, stdMax, newPt]

/-- C5 (amended): for a non-empty trajectory and a non-empty footprint, if the
position of the final pose cannot be mapped to a grid cell and the primitive
returns a non-negative value for the polygon made of the first transformed
vertex alone, `scoreTrajectory` returns exactly `-7`. -/
theorem scoreTrajectory_off_map_final_pose (M : CMath α) (self : ObstacleCostFunction α)
    (traj : Trajectory α) (wm : WorldModel α) (v : Point α) (rest : List (Point α))
    (h : traj.points ≠ []) (hwm : self.world_model_ = some wm)
    (hfp : self.footprint_spec_ = v :: rest)
    (hmap : self.costmap_.worldToMap (traj.points.getLast h).x (traj.points.getLast h).y
      = none)
    (hfree : 0 ≤ wm.footprintCost ⟨(traj.points.getLast h).x, (traj.points.getLast h).y, 0⟩
      (scaledOrientedFootprint M (traj.points.getLast h).x (traj.points.getLast h).y
        (traj.points.getLast h).th
        (getScalingFactor M traj self.scaling_speed_ self.max_trans_vel_
          self.max_scaling_factor_) [v])
      self.costmap_.getInscribedRadius self.costmap_.getCircumscribedRadius) :
    scoreTrajectory M self traj = some (-7) := by
  unfold scoreTrajectory
  rw [scoreTrajectoryLoop_getLast M self _ traj.points h 0, hwm, hfp]
  simp only [footprintCost, footprintCostLoop, List.nil_append]
  rw [if_neg (not_lt.mpr (by simpa [scaledOrientedFootprint] using hfree)), hmap]

/-- Witness of C5 (amended): the last pose is off the map and the primitive
reports no collision: the score is `-7`. -/
theorem scoreTrajectory_off_map_final_pose_witness :
    (halfPlaneGrid (0 : ℝ)).worldToMap (-1) 0 = none
      ∧ scoreTrajectory ⟨Real.sqrt, Real.cos, Real.sin⟩
          (sampleEvaluator [⟨1, 0, 0⟩, ⟨0, 1, 0⟩] (0 : ℝ) (some (constModel 5)))
          ⟨0, 0, [⟨1, 0, 0⟩, ⟨-1, 0, 0⟩]⟩ = some (-7) :=
  ⟨by norm_num [halfPlaneGrid],
   scoreTrajectory_off_map_final_pose ⟨Real.sqrt, Real.cos, Real.sin⟩
    (sampleEvaluator [⟨1, 0, 0⟩, ⟨0, 1, 0⟩] (0 : ℝ) (some (constModel 5)))
    ⟨0, 0, [⟨1, 0, 0⟩, ⟨-1, 0, 0⟩]⟩ (constModel 5) ⟨1, 0, 0⟩ [⟨0, 1, 0⟩] (by simp) rfl rfl
    (by norm_num [sampleEvaluator, halfPlaneGrid])
    (by norm_num [constModel])⟩

/-- C6 (evaluation of the code at the failing inputs): with an empty footprint
and a pose whose origin maps to a cell of cost `100`, `footprintCost` and
`scoreTrajectory` return `0`, not `100`; for a pose whose origin is off the
map they return `0`, not `-7`. -/
theorem footprintCost_empty_footprint_ignores_grid :
    ((halfPlaneGrid (100 : ℝ)).worldToMap 1 0 = some (0, 0)
      ∧ (halfPlaneGrid (100 : ℝ)).getCost 0 0 = 100
      ∧ footprintCost ⟨Real.sqrt, Real.cos, Real.sin⟩ 1 0 0 1 []
          (halfPlaneGrid (100 : ℝ)) (some (constModel 0)) = some 0
      ∧ scoreTrajectory ⟨Real.sqrt, Real.cos, Real.sin⟩
          (sampleEvaluator [] (100 : ℝ) (some (constModel 0))) ⟨0, 0, [⟨1, 0, 0⟩]⟩ = some 0)
    ∧ ((halfPlaneGrid (100 : ℝ)).worldToMap (-1) 0 = none
      ∧ footprintCost ⟨Real.sqrt, Real.cos, Real.sin⟩ (-1) 0 0 1 []
          (halfPlaneGrid (100 : ℝ)) (some (constModel 0)) = some 0
      ∧ scoreTrajectory ⟨Real.sqrt, Real.cos, Real.sin⟩
          (sampleEvaluator [] (100 : ℝ) (some (constModel 0))) ⟨0, 0, [⟨-1, 0, 0⟩]⟩ = some 0) := by
  refine ⟨⟨?_, ?_, ?_, ?_⟩, ?_, ?_, ?_⟩ <;>
    norm_num [scoreTrajectory, scoreTrajectoryLoop, footprintCost, footprintCostLoop,
      sampleEvaluator, halfPlaneGrid]

/-- C7: for a non-empty footprint of `n` vertices, if the primitive is
non-negative on each of the `n` growing polygons (the first `k` transformed
vertices, `k = 1 .. n`, in footprint order) and the origin of the pose maps
to a cell, `footprintCost` returns the maximum of that cell's cost and the
largest value `m` of the primitive over those `n` polygons. -/
theorem footprintCost_max_over_growing_polygon (M : CMath α) (x y th scale : α)
    (footprint_spec : List (Point α)) (cm : Costmap2D α) (wm : WorldModel α)
    (cell_x cell_y : Nat) (hfp : footprint_spec ≠ [])
    (hmap : cm.worldToMap x y = some (cell_x, cell_y))
    (hfree : ∀ k, 1 ≤ k → k ≤ footprint_spec.length →
      0 ≤ wm.footprintCost ⟨x, y, 0⟩
        ((footprint_spec.map (fun v : Point α =>
          (⟨x + (scale * v.x * M.cos th - scale * v.y * M.sin th),
            y + (scale * v.x * M.sin th + scale * v.y * M.cos th), 0⟩ : Point α))).take k)
        cm.getInscribedRadius cm.getCircumscribedRadius) :
    ∃ m, (∃ k, 1 ≤ k ∧ k ≤ footprint_spec.length ∧
          wm.footprintCost ⟨x, y, 0⟩
            ((footprint_spec.map (fun v : Point α =>
              (⟨x + (scale * v.x * M.cos th - scale * v.y * M.sin th),
                y + (scale * v.x * M.sin th + scale * v.y * M.cos th), 0⟩ : Point α))).take k)
            cm.getInscribedRadius cm.getCircumscribedRadius = m)
      ∧ (∀ k, 1 ≤ k → k ≤ footprint_spec.length →
          wm.footprintCost ⟨x, y, 0⟩
            ((footprint_spec.map (fun v : Point α =>
              (⟨x + (scale * v.x * M.cos th - scale * v.y * M.sin th),
                y + (scale * v.x * M.sin th + scale * v.y * M.cos th), 0⟩ : Point α))).take k)
            cm.getInscribedRadius cm.getCircumscribedRadius ≤ m)
      ∧ footprintCost M x y th scale footprint_spec cm (some wm)
          = some (max (cm.getCost cell_x cell_y) m) := by
  obtain ⟨m, ⟨k, hk1, hk2, hk⟩, hub, hres⟩ :=
    footprintCostLoop_running_max x y scale (M.cos th) (M.sin th) cm wm cell_x cell_y hmap
      footprint_spec [] 0 hfp (by simpa [newPt] using hfree)
  refine ⟨m, ⟨k, hk1, hk2, by simpa [newPt] using hk⟩, by simpa [newPt] using hub, ?_⟩
  have hm : 0 ≤ m := by
    have := hfree k hk1 hk2
    rw [← hk]
    simpa [newPt] using this
  unfold footprintCost
  rw [hres, max_eq_right hm, max_comm]

/-- Witness of C7: the footprint has two vertices, the primitive answers `3`
on the one-vertex polygon and `1` on the complete one, and the cell under the
origin costs `2`: the result is the maximum of `2` and the largest value of
the primitive over both polygons. -/
theorem footprintCost_max_over_growing_polygon_witness :
    (halfPlaneGrid (2 : ℝ)).worldToMap 1 0 = some (0, 0)
      ∧ ∃ m : ℝ, (∃ k, 1 ≤ k ∧ k ≤ 2 ∧
          (taperModel : WorldModel ℝ).footprintCost ⟨1, 0, 0⟩
            ((([⟨1, 0, 0⟩, ⟨0, 1, 0⟩] : List (Point ℝ)).map (fun v : Point ℝ =>
              (⟨1 + (1 * v.x * Real.cos 0 - 1 * v.y * Real.sin 0),
                0 + (1 * v.x * Real.sin 0 + 1 * v.y * Real.cos 0), 0⟩ : Point ℝ))).take k)
            0 0 = m)
        ∧ (∀ k, 1 ≤ k → k ≤ 2 →
          (taperModel : WorldModel ℝ).footprintCost ⟨1, 0, 0⟩
            ((([⟨1, 0, 0⟩, ⟨0, 1, 0⟩] : List (Point ℝ)).map (fun v : Point ℝ =>
              (⟨1 + (1 * v.x * Real.cos 0 - 1 * v.y * Real.sin 0),
                0 + (1 * v.x * Real.sin 0 + 1 * v.y * Real.cos 0), 0⟩ : Point ℝ))).take k)
            0 0 ≤ m)
        ∧ footprintCost ⟨Real.sqrt, Real.cos, Real.sin⟩ 1 0 0 1 [⟨1, 0, 0⟩, ⟨0, 1, 0⟩]
            (halfPlaneGrid (2 : ℝ)) (some taperModel) = some (max 2 m) :=
  ⟨by norm_num [halfPlaneGrid],
   footprintCost_max_over_growing_polygon ⟨Real.sqrt, Real.cos, Real.sin⟩ 1 0 0 1
    [⟨1, 0, 0⟩, ⟨0, 1, 0⟩] (halfPlaneGrid (2 : ℝ)) taperModel 0 0 (by simp)
    (by norm_num [halfPlaneGrid])
    (by
      intro k _ _
      simp only [taperModel]
      split_ifs <;> norm_num)⟩

/-- C8: when every pose of the trajectory maps onto the grid, every cell
costs `0` and the primitive answers `0` for every polygon, `scoreTrajectory`
returns `0`, and so neither `-6` nor `-7`. -/
theorem scoreTrajectory_free_space (M : CMath α) (self : ObstacleCostFunction α)
    (traj : Trajectory α) (wm : WorldModel α) (hwm : self.world_model_ = some wm)
    (hmap : ∀ p ∈ traj.points, ∃ cell, self.costmap_.worldToMap p.x p.y = some cell)
    (hcost : ∀ cx cy, self.costmap_.getCost cx cy = 0)
    (hprim : ∀ pos poly r1 r2, wm.footprintCost pos poly r1 r2 = 0) :
    scoreTrajectory M self traj = some 0
      ∧ scoreTrajectory M self traj ≠ some (-6)
      ∧ scoreTrajectory M self traj ≠ some (-7) := by
  have key : scoreTrajectory M self traj = some 0 := by
    unfold scoreTrajectory
    by_cases h : traj.points = []
    · rw [h]; rfl
    · obtain ⟨cell, hcell⟩ := hmap _ (List.getLast_mem h)
      rw [scoreTrajectoryLoop_getLast M self _ traj.points h 0, hwm]
      exact footprintCostLoop_free _ _ _ _ _ _ wm cell hcell hcost hprim _ []
  refine ⟨key, ?_, ?_⟩ <;> rw [key] <;> norm_num

/-- Witness of C8: two poses on the sample grid with cell cost `0` and a
primitive that answers `0` score `0`. -/
theorem scoreTrajectory_free_space_witness :
    (∀ p ∈ ([⟨1, 0, 0⟩, ⟨2, 1, 0⟩] : List (Pose ℝ)),
        ∃ cell, (halfPlaneGrid (0 : ℝ)).worldToMap p.x p.y = some cell)
      ∧ scoreTrajectory ⟨Real.sqrt, Real.cos, Real.sin⟩
          (sampleEvaluator [⟨1, 0, 0⟩, ⟨0, 1, 0⟩] (0 : ℝ) (some (constModel 0)))
          ⟨1, 0, [⟨1, 0, 0⟩, ⟨2, 1, 0⟩]⟩ = some 0 :=
  ⟨by simp [halfPlaneGrid],
   (scoreTrajectory_free_space ⟨Real.sqrt, Real.cos, Real.sin⟩
    (sampleEvaluator [⟨1, 0, 0⟩, ⟨0, 1, 0⟩] (0 : ℝ) (some (constModel 0)))
    ⟨1, 0, [⟨1, 0, 0⟩, ⟨2, 1, 0⟩]⟩ (constModel 0) rfl
    (by simp [sampleEvaluator, halfPlaneGrid])
    (fun _ _ => rfl) (fun _ _ _ _ => rfl)).1⟩

/-- C9: when the magnitude `sqrt (xv * xv + yv * yv)` of the trajectory
velocity is at most `scaling_speed`, `getScalingFactor` returns exactly `1`,
for every `max_trans_vel` and `max_scaling_factor`. -/
theorem getScalingFactor_below_threshold (M : CMath α) (traj : Trajectory α)
    (scaling_speed max_trans_vel max_scaling_factor : α)
    (h : M.sqrt (traj.xv_ * traj.xv_ + traj.yv_ * traj.yv_) ≤ scaling_speed) :
    getScalingFactor M traj scaling_speed max_trans_vel max_scaling_factor = 1 := by
  unfold getScalingFactor
  exact if_neg (not_lt.mpr h)

/-- Witness of C9: velocity `(3/10, 0)` has magnitude `3/10 = scaling_speed`,
and the scale is `1` even with `max_trans_vel = scaling_speed`. -/
theorem getScalingFactor_below_threshold_witness :
    Real.sqrt (3 / 10 * (3 / 10) + 0 * 0) ≤ 3 / 10
      ∧ getScalingFactor ⟨Real.sqrt, Real.cos, Real.sin⟩ ⟨3 / 10, 0, []⟩ (3 / 10) (3 / 10) 2
        = 1 :=
  ⟨by rw [mul_zero, add_zero, Real.sqrt_mul_self (by norm_num)],
   getScalingFactor_below_threshold ⟨Real.sqrt, Real.cos, Real.sin⟩ ⟨3 / 10, 0, []⟩
    (3 / 10) (3 / 10) 2
    (by
      show Real.sqrt (3 / 10 * (3 / 10) + 0 * 0) ≤ 3 / 10
      rw [mul_zero, add_zero, Real.sqrt_mul_self (by norm_num)])⟩

/-- C10: when the magnitude `s = sqrt (xv * xv + yv * yv)` of the trajectory
velocity exceeds `scaling_speed`, `getScalingFactor` returns
`1 + max_scaling_factor * (s - scaling_speed) / (max_trans_vel - scaling_speed)`;
nothing clamps it: for `s > max_trans_vel > scaling_speed` and
`max_scaling_factor > 0` the result exceeds `1 + max_scaling_factor`. -/
theorem getScalingFactor_above_threshold (M : CMath α) (traj : Trajectory α)
    (scaling_speed max_trans_vel max_scaling_factor : α)
    (h : scaling_speed < M.sqrt (traj.xv_ * traj.xv_ + traj.yv_ * traj.yv_)) :
    getScalingFactor M traj scaling_speed max_trans_vel max_scaling_factor
        = 1 + max_scaling_factor
            * (M.sqrt (traj.xv_ * traj.xv_ + traj.yv_ * traj.yv_) - scaling_speed)
            / (max_trans_vel - scaling_speed)
      ∧ (scaling_speed < max_trans_vel →
          max_trans_vel < M.sqrt (traj.xv_ * traj.xv_ + traj.yv_ * traj.yv_) →
          0 < max_scaling_factor →
          1 + max_scaling_factor
            < getScalingFactor M traj scaling_speed max_trans_vel max_scaling_factor) := by
  have hval : getScalingFactor M traj scaling_speed max_trans_vel max_scaling_factor
      = 1 + max_scaling_factor
          * (M.sqrt (traj.xv_ * traj.xv_ + traj.yv_ * traj.yv_) - scaling_speed)
          / (max_trans_vel - scaling_speed) := by
    unfold getScalingFactor
    simp only [gt_iff_lt, h, if_true]
    rw [mul_div_assoc, add_comm]
  refine ⟨hval, ?_⟩
  intro h1 h2 h3
  rw [hval, mul_div_assoc]
  have hden : 0 < max_trans_vel - scaling_speed := sub_pos.mpr h1
  have hratio : 1 < (M.sqrt (traj.xv_ * traj.xv_ + traj.yv_ * traj.yv_) - scaling_speed)
      / (max_trans_vel - scaling_speed) := by
    rw [one_lt_div hden]
    exact sub_lt_sub_right h2 _
  have := mul_lt_mul_of_pos_left hratio h3
  rw [mul_one] at this
  exact add_lt_add_left this 1

/-- Witness of C10: velocity `(2, 0)` with `scaling_speed = 3/10`,
`max_trans_vel = 1` and `max_scaling_factor = 2` gives a scale above `3`. -/
theorem getScalingFactor_above_threshold_witness :
    (3 / 10 : ℝ) < Real.sqrt (2 * 2 + 0 * 0)
      ∧ (1 : ℝ) < Real.sqrt (2 * 2 + 0 * 0)
      ∧ getScalingFactor ⟨Real.sqrt, Real.cos, Real.sin⟩ ⟨2, 0, []⟩ (3 / 10) 1 2
          = 1 + 2 * (Real.sqrt (2 * 2 + 0 * 0) - 3 / 10) / (1 - 3 / 10)
      ∧ (1 : ℝ) + 2
          < getScalingFactor ⟨Real.sqrt, Real.cos, Real.sin⟩ ⟨2, 0, []⟩ (3 / 10) 1 2 := by
  have hs : Real.sqrt (2 * 2 + 0 * 0) = 2 := by
    rw [mul_zero, add_zero, Real.sqrt_mul_self (by norm_num)]
  have h1 : (3 / 10 : ℝ) < Real.sqrt (2 * 2 + 0 * 0) := by rw [hs]; norm_num
  have h2 : (1 : ℝ) < Real.sqrt (2 * 2 + 0 * 0) := by rw [hs]; norm_num
  exact ⟨h1, h2,
    (getScalingFactor_above_threshold ⟨Real.sqrt, Real.cos, Real.sin⟩ ⟨2, 0, []⟩
      (3 / 10) 1 2 h1).1,
    (getScalingFactor_above_threshold ⟨Real.sqrt, Real.cos, Real.sin⟩ ⟨2, 0, []⟩
      (3 / 10) 1 2 h1).2 (by norm_num) h2 (by norm_num)⟩

/-- C11: with `max_trans_vel > scaling_speed`, a trajectory velocity whose
magnitude equals `max_trans_vel` gets the scale `1 + max_scaling_factor`. -/
theorem getScalingFactor_at_max_trans_vel (M : CMath α) (traj : Trajectory α)
    (scaling_speed max_trans_vel max_scaling_factor : α)
    (h : scaling_speed < max_trans_vel)
    (hs : M.sqrt (traj.xv_ * traj.xv_ + traj.yv_ * traj.yv_) = max_trans_vel) :
    getScalingFactor M traj scaling_speed max_trans_vel max_scaling_factor
      = 1 + max_scaling_factor := by
  rw [getScalingFactor_of_lt M traj _ _ _ (by rw [hs]; exact h), hs,
    div_self (sub_pos.mpr h).ne.symm, mul_one, add_comm]

/-- Witness of C11: velocity `(1, 0)` with `max_trans_vel = 1`,
`scaling_speed = 3/10` and `max_scaling_factor = 2` gets the scale `3`. -/
theorem getScalingFactor_at_max_trans_vel_witness :
    (3 / 10 : ℝ) < 1 ∧ Real.sqrt (1 * 1 + 0 * 0) = 1
      ∧ getScalingFactor ⟨Real.sqrt, Real.cos, Real.sin⟩ ⟨1, 0, []⟩ (3 / 10) 1 2
          = 1 + 2 :=
  ⟨by norm_num, sqrt_velocity_along_x 1 (by norm_num),
   getScalingFactor_at_max_trans_vel ⟨Real.sqrt, Real.cos, Real.sin⟩ ⟨1, 0, []⟩
    (3 / 10) 1 2 (by norm_num) (sqrt_velocity_along_x 1 (by norm_num))⟩

/-- C12: with `max_trans_vel > scaling_speed` and `max_scaling_factor ≥ 0`,
`getScalingFactor` is non-decreasing in the magnitude of the velocity: if
the magnitude of the first velocity is at most that of the second, so are
the scales; and the scale is never below `1`. -/
theorem getScalingFactor_monotone (M : CMath α) (traj1 traj2 : Trajectory α)
    (scaling_speed max_trans_vel max_scaling_factor : α)
    (h : scaling_speed < max_trans_vel) (hm : 0 ≤ max_scaling_factor)
    (hle : M.sqrt (traj1.xv_ * traj1.xv_ + traj1.yv_ * traj1.yv_)
      ≤ M.sqrt (traj2.xv_ * traj2.xv_ + traj2.yv_ * traj2.yv_)) :
    getScalingFactor M traj1 scaling_speed max_trans_vel max_scaling_factor
        ≤ getScalingFactor M traj2 scaling_speed max_trans_vel max_scaling_factor
      ∧ 1 ≤ getScalingFactor M traj1 scaling_speed max_trans_vel max_scaling_factor := by
  have hden : 0 < max_trans_vel - scaling_speed := sub_pos.mpr h
  have hge : ∀ t : Trajectory α,
      1 ≤ getScalingFactor M t scaling_speed max_trans_vel max_scaling_factor := by
    intro t
    rcases le_or_lt (M.sqrt (t.xv_ * t.xv_ + t.yv_ * t.yv_)) scaling_speed with ht | ht
    · rw [getScalingFactor_of_le M t _ _ _ ht]
    · rw [getScalingFactor_of_lt M t _ _ _ ht]
      have : 0 ≤ max_scaling_factor
          * ((M.sqrt (t.xv_ * t.xv_ + t.yv_ * t.yv_) - scaling_speed)
            / (max_trans_vel - scaling_speed)) :=
        mul_nonneg hm (div_nonneg (sub_pos.mpr ht).le hden.le)
      linarith
  refine ⟨?_, hge traj1⟩
  rcases le_or_lt (M.sqrt (traj1.xv_ * traj1.xv_ + traj1.yv_ * traj1.yv_)) scaling_speed
    with h1 | h1
  · rw [getScalingFactor_of_le M traj1 _ _ _ h1]
    exact hge traj2
  · rw [getScalingFactor_of_lt M traj1 _ _ _ h1,
      getScalingFactor_of_lt M traj2 _ _ _ (lt_of_lt_of_le h1 hle)]
    have hr : (M.sqrt (traj1.xv_ * traj1.xv_ + traj1.yv_ * traj1.yv_) - scaling_speed)
          / (max_trans_vel - scaling_speed)
        ≤ (M.sqrt (traj2.xv_ * traj2.xv_ + traj2.yv_ * traj2.yv_) - scaling_speed)
          / (max_trans_vel - scaling_speed) :=
      (div_le_div_iff_of_pos_right hden).mpr (sub_le_sub_right hle _)
    exact add_le_add_right (mul_le_mul_of_nonneg_left hr hm) 1

/-- Witness of C12: the velocities `(1/2, 0)` and `(1, 0)` with
`scaling_speed = 3/10`, `max_trans_vel = 1` and `max_scaling_factor = 2`. -/
theorem getScalingFactor_monotone_witness :
    Real.sqrt (1 / 2 * (1 / 2) + 0 * 0) ≤ Real.sqrt (1 * 1 + 0 * 0)
      ∧ getScalingFactor ⟨Real.sqrt, Real.cos, Real.sin⟩ ⟨1 / 2, 0, []⟩ (3 / 10) 1 2
          ≤ getScalingFactor ⟨Real.sqrt, Real.cos, Real.sin⟩ ⟨1, 0, []⟩ (3 / 10) 1 2
      ∧ 1 ≤ getScalingFactor ⟨Real.sqrt, Real.cos, Real.sin⟩ ⟨1 / 2, 0, []⟩ (3 / 10) 1 2 := by
  have hle : Real.sqrt (1 / 2 * (1 / 2) + 0 * 0) ≤ Real.sqrt (1 * 1 + 0 * 0) := by
    rw [sqrt_velocity_along_x (1 / 2) (by norm_num), sqrt_velocity_along_x 1 (by norm_num)]
    norm_num
  exact ⟨hle, getScalingFactor_monotone ⟨Real.sqrt, Real.cos, Real.sin⟩ ⟨1 / 2, 0, []⟩
    ⟨1, 0, []⟩ (3 / 10) 1 2 (by norm_num) (by norm_num) hle⟩

/-- C13: with `max_trans_vel > scaling_speed` the scale is a continuous
function of the speed magnitude: `getScalingFactor` is the function
`s ↦ if scaling_speed < s then ramp s else 1` applied to the magnitude of
the velocity, that function is continuous on the speeds `s ≥ 0`, and the
ramp formula at `s = scaling_speed` gives `1`, the value of the other
branch (and `1 + max_scaling_factor` at `s = max_trans_vel`, the other end of
the ramp). -/
theorem getScalingFactor_continuous (scaling_speed max_trans_vel max_scaling_factor : ℝ)
    (h : scaling_speed < max_trans_vel) :
    (∀ traj : Trajectory ℝ,
        getScalingFactor ⟨Real.sqrt, Real.cos, Real.sin⟩ traj scaling_speed max_trans_vel
            max_scaling_factor
          = (fun s : ℝ => if scaling_speed < s then
                1 + max_scaling_factor * (s - scaling_speed) / (max_trans_vel - scaling_speed)
              else 1) (Real.sqrt (traj.xv_ * traj.xv_ + traj.yv_ * traj.yv_)))
      ∧ ContinuousOn (fun s : ℝ => if scaling_speed < s then
            1 + max_scaling_factor * (s - scaling_speed) / (max_trans_vel - scaling_speed)
          else 1) (Set.Ici 0)
      ∧ ContinuousOn (fun s : ℝ => getScalingFactor ⟨Real.sqrt, Real.cos, Real.sin⟩
            ⟨s, 0, []⟩ scaling_speed max_trans_vel max_scaling_factor) (Set.Ici 0)
      ∧ 1 + max_scaling_factor * (scaling_speed - scaling_speed)
            / (max_trans_vel - scaling_speed) = 1
      ∧ 1 + max_scaling_factor * (max_trans_vel - scaling_speed)
            / (max_trans_vel - scaling_speed) = 1 + max_scaling_factor := by
  have hfun : (fun s : ℝ => if scaling_speed < s then
        1 + max_scaling_factor * (s - scaling_speed) / (max_trans_vel - scaling_speed)
      else 1)
      = fun s : ℝ => 1 + max_scaling_factor * (max s scaling_speed - scaling_speed)
          / (max_trans_vel - scaling_speed) := by
    funext s
    split_ifs with hs
    · rw [max_eq_left hs.le]
    · rw [max_eq_right (not_lt.mp hs), sub_self, mul_zero, zero_div, add_zero]
  have hcont : Continuous (fun s : ℝ => if scaling_speed < s then
        1 + max_scaling_factor * (s - scaling_speed) / (max_trans_vel - scaling_speed)
      else 1) := by
    rw [hfun]
    exact continuous_const.add ((continuous_const.mul
      ((continuous_id.max continuous_const).sub continuous_const)).div_const _)
  have hfac : ∀ traj : Trajectory ℝ,
      getScalingFactor ⟨Real.sqrt, Real.cos, Real.sin⟩ traj scaling_speed max_trans_vel
          max_scaling_factor
        = (fun s : ℝ => if scaling_speed < s then
              1 + max_scaling_factor * (s - scaling_speed) / (max_trans_vel - scaling_speed)
            else 1) (Real.sqrt (traj.xv_ * traj.xv_ + traj.yv_ * traj.yv_)) := by
    intro traj
    simp only [getScalingFactor, gt_iff_lt]
    split_ifs
    · rw [mul_div_assoc, add_comm]
    · rfl
  refine ⟨hfac, hcont.continuousOn, ?_, ?_, ?_⟩
  · refine hcont.continuousOn.congr ?_
    intro s hs
    have := hfac ⟨s, 0, []⟩
    simp only [sqrt_velocity_along_x s hs] at this
    exact this
  · rw [sub_self, mul_zero, zero_div, add_zero]
  · rw [mul_div_assoc, div_self (sub_pos.mpr h).ne.symm, mul_one]

/-- Witness of C13: the parameters `scaling_speed = 3/10`, `max_trans_vel = 1`
and `max_scaling_factor = 2`. -/
theorem getScalingFactor_continuous_witness :
    (3 / 10 : ℝ) < 1
      ∧ ContinuousOn (fun s : ℝ => getScalingFactor ⟨Real.sqrt, Real.cos, Real.sin⟩
            ⟨s, 0, []⟩ (3 / 10) 1 2) (Set.Ici 0)
      ∧ (1 : ℝ) + 2 * (3 / 10 - 3 / 10) / (1 - 3 / 10) = 1 :=
  ⟨by norm_num, (getScalingFactor_continuous (3 / 10) 1 2 (by norm_num)).2.2.1,
   (getScalingFactor_continuous (3 / 10) 1 2 (by norm_num)).2.2.2.1⟩

/-- C14: nothing checks `max_trans_vel > scaling_speed`, and with
`max_trans_vel < scaling_speed` and `max_scaling_factor > 0` the scaling is
inverted: every speed above `scaling_speed` gets a scale strictly below `1`,
and of two such speeds the larger gets the smaller scale. -/
theorem getScalingFactor_inverted (M : CMath α) (traj1 traj2 : Trajectory α)
    (scaling_speed max_trans_vel max_scaling_factor : α)
    (h : max_trans_vel < scaling_speed) (hm : 0 < max_scaling_factor)
    (h1 : scaling_speed < M.sqrt (traj1.xv_ * traj1.xv_ + traj1.yv_ * traj1.yv_))
    (h12 : M.sqrt (traj1.xv_ * traj1.xv_ + traj1.yv_ * traj1.yv_)
      < M.sqrt (traj2.xv_ * traj2.xv_ + traj2.yv_ * traj2.yv_)) :
    getScalingFactor M traj1 scaling_speed max_trans_vel max_scaling_factor < 1
      ∧ getScalingFactor M traj2 scaling_speed max_trans_vel max_scaling_factor
          < getScalingFactor M traj1 scaling_speed max_trans_vel max_scaling_factor := by
  have hden : max_trans_vel - scaling_speed < 0 := sub_neg.mpr h
  rw [getScalingFactor_of_lt M traj1 _ _ _ h1,
    getScalingFactor_of_lt M traj2 _ _ _ (lt_trans h1 h12)]
  constructor
  · have := mul_neg_of_pos_of_neg hm (div_neg_of_pos_of_neg (sub_pos.mpr h1) hden)
    linarith
  · have hr : (M.sqrt (traj2.xv_ * traj2.xv_ + traj2.yv_ * traj2.yv_) - scaling_speed)
          / (max_trans_vel - scaling_speed)
        < (M.sqrt (traj1.xv_ * traj1.xv_ + traj1.yv_ * traj1.yv_) - scaling_speed)
          / (max_trans_vel - scaling_speed) :=
      (div_lt_div_right_of_neg hden).mpr (sub_lt_sub_right h12 _)
    exact add_lt_add_right (mul_lt_mul_of_pos_left hr hm) 1

/-- Witness of C14: with `scaling_speed = 1`, `max_trans_vel = 1/2` and
`max_scaling_factor = 2` the velocity `(2, 0)` gets a scale below `1` and the
velocity `(3, 0)` a still smaller one. -/
theorem getScalingFactor_inverted_witness :
    (1 / 2 : ℝ) < 1 ∧ (0 : ℝ) < 2
      ∧ (1 : ℝ) < Real.sqrt (2 * 2 + 0 * 0)
      ∧ Real.sqrt (2 * 2 + 0 * 0) < Real.sqrt (3 * 3 + 0 * 0)
      ∧ getScalingFactor ⟨Real.sqrt, Real.cos, Real.sin⟩ ⟨2, 0, []⟩ 1 (1 / 2) 2 < 1
      ∧ getScalingFactor ⟨Real.sqrt, Real.cos, Real.sin⟩ ⟨3, 0, []⟩ 1 (1 / 2) 2
          < getScalingFactor ⟨Real.sqrt, Real.cos, Real.sin⟩ ⟨2, 0, []⟩ 1 (1 / 2) 2 := by
  have h1 : (1 : ℝ) < Real.sqrt (2 * 2 + 0 * 0) := by
    rw [sqrt_velocity_along_x 2 (by norm_num)]; norm_num
  have h12 : Real.sqrt (2 * 2 + 0 * 0) < Real.sqrt (3 * 3 + 0 * 0) := by
    rw [sqrt_velocity_along_x 2 (by norm_num), sqrt_velocity_along_x 3 (by norm_num)]
    norm_num
  exact ⟨by norm_num, by norm_num, h1, h12,
    getScalingFactor_inverted ⟨Real.sqrt, Real.cos, Real.sin⟩ ⟨2, 0, []⟩ ⟨3, 0, []⟩
      1 (1 / 2) 2 (by norm_num) (by norm_num) h1 h12⟩

/-- C15: the worked example.  Velocity `(1/2, 0)` with `scaling_speed = 3/10`,
`max_trans_vel = 1` and `max_scaling_factor = 2` gets the scale `11/7`, and
for the pose `(1, 1, 0)` the vertex `(1/5, 1/5)` of the square footprint is
moved to `(46/35, 46/35)` (the other three vertices accordingly). -/
theorem getScalingFactor_worked_example :
    getScalingFactor ⟨Real.sqrt, Real.cos, Real.sin⟩ ⟨1 / 2, 0, [⟨1, 1, 0⟩]⟩ (3 / 10) 1 2
        = 11 / 7
      ∧ newPt (1 : ℝ) 1
          (getScalingFactor ⟨Real.sqrt, Real.cos, Real.sin⟩ ⟨1 / 2, 0, [⟨1, 1, 0⟩]⟩
            (3 / 10) 1 2)
          (Real.cos 0) (Real.sin 0) ⟨1 / 5, 1 / 5, 0⟩ = ⟨46 / 35, 46 / 35, 0⟩
      ∧ scaledOrientedFootprint ⟨Real.sqrt, Real.cos, Real.sin⟩ 1 1 0
          (getScalingFactor ⟨Real.sqrt, Real.cos, Real.sin⟩ ⟨1 / 2, 0, [⟨1, 1, 0⟩]⟩
            (3 / 10) 1 2)
          [⟨1 / 5, 1 / 5, 0⟩, ⟨-1 / 5, 1 / 5, 0⟩, ⟨-1 / 5, -1 / 5, 0⟩, ⟨1 / 5, -1 / 5, 0⟩]
        = [⟨46 / 35, 46 / 35, 0⟩, ⟨24 / 35, 46 / 35, 0⟩, ⟨24 / 35, 24 / 35, 0⟩,
            ⟨46 / 35, 24 / 35, 0⟩] := by
  have hs : getScalingFactor ⟨Real.sqrt, Real.cos, Real.sin⟩
      ⟨1 / 2, 0, [⟨1, 1, 0⟩]⟩ (3 / 10) 1 2 = 11 / 7 := by
    have hv : Real.sqrt (1 / 2 * (1 / 2) + 0 * 0) = 1 / 2 :=
      sqrt_velocity_along_x (1 / 2) (by norm_num)
    simp only [getScalingFactor, hv]
    norm_num
  refine ⟨hs, ?_, ?_⟩
  · rw [hs]
    norm_num [newPt]
  · rw [hs]
    norm_num [scaledOrientedFootprint, newPt]

/-- C16 (counterexample): an evaluator constructed with a NULL costmap scores
a trajectory without poses with the ordinary value `0`, and so does it score
a trajectory of one pose; the computation does not fail. -/
theorem scoreTrajectory_unprepared_counterexample :
    (scoreTrajectory ⟨Real.sqrt, Real.cos, Real.sin⟩
        (ObstacleCostFunction.new (fun _ => constModel 0)
          (sampleEvaluator [] (0 : ℝ) none) none)
        ⟨0, 0, []⟩ = some 0
      ∧ scoreTrajectory ⟨Real.sqrt, Real.cos, Real.sin⟩
        (ObstacleCostFunction.new (fun _ => constModel 0)
          (sampleEvaluator [] (0 : ℝ) none) none)
        ⟨0, 0, []⟩ ≠ none)
    ∧ (scoreTrajectory ⟨Real.sqrt, Real.cos, Real.sin⟩
        (ObstacleCostFunction.new (fun _ => constModel 0)
          (sampleEvaluator [] (0 : ℝ) none) none)
        ⟨0, 0, [⟨1, 0, 0⟩]⟩ = some 0
      ∧ scoreTrajectory ⟨Real.sqrt, Real.cos, Real.sin⟩
        (ObstacleCostFunction.new (fun _ => constModel 0)
          (sampleEvaluator [] (0 : ℝ) none) none)
        ⟨0, 0, [⟨1, 0, 0⟩]⟩ ≠ none) := by
  refine ⟨⟨?_, ?_⟩, ?_, ?_⟩ <;>
    simp [scoreTrajectory, scoreTrajectoryLoop, footprintCost, footprintCostLoop,
      ObstacleCostFunction.new, sampleEvaluator]

/-- C16 (amended): an evaluator constructed with a NULL costmap is left
unprepared: the constructor sets neither the footprint, the grid copy nor the
world model (from a costmap that is not NULL it sets all three), and
`scoreTrajectory` makes no check of that state: it scores with the members as
the construction found them, and for a trajectory without poses it returns
`0` rather than an error.  Nothing is said here about what a trajectory with
poses scores in that state. -/
theorem scoreTrajectory_unprepared (M : CMath α) (CostmapModel : Costmap2D α → WorldModel α)
    (init : ObstacleCostFunction α) (ros : Costmap2DROS α) (xv yv : α) :
    ((ObstacleCostFunction.new CostmapModel init none).costmap_ros_ = none
      ∧ (ObstacleCostFunction.new CostmapModel init none).footprint_spec_
          = init.footprint_spec_
      ∧ (ObstacleCostFunction.new CostmapModel init none).costmap_ = init.costmap_
      ∧ (ObstacleCostFunction.new CostmapModel init none).world_model_ = init.world_model_)
    ∧ ((ObstacleCostFunction.new CostmapModel init (some ros)).costmap_ros_ = some ros
      ∧ (ObstacleCostFunction.new CostmapModel init (some ros)).footprint_spec_
          = ros.getRobotFootprint
      ∧ (ObstacleCostFunction.new CostmapModel init (some ros)).costmap_
          = ros.getCostmapCopy
      ∧ (ObstacleCostFunction.new CostmapModel init (some ros)).world_model_
          = some (CostmapModel ros.getCostmapCopy))
    ∧ (∀ traj : Trajectory α,
        scoreTrajectory M (ObstacleCostFunction.new CostmapModel init none) traj
          = scoreTrajectory M init traj)
    ∧ scoreTrajectory M (ObstacleCostFunction.new CostmapModel init none) ⟨xv, yv, []⟩
        = some 0
    ∧ scoreTrajectory M (ObstacleCostFunction.new CostmapModel init none) ⟨xv, yv, []⟩
        ≠ none := by
  have key : scoreTrajectory M (ObstacleCostFunction.new CostmapModel init none)
      ⟨xv, yv, []⟩ = some 0 := rfl
  refine ⟨⟨rfl, rfl, rfl, rfl⟩, ⟨rfl, rfl, rfl, rfl⟩, ?_, key, ?_⟩
  · intro traj
    unfold scoreTrajectory
    rw [scoreTrajectoryLoop_eq_foldl, scoreTrajectoryLoop_eq_foldl]
    rfl
  · rw [key]
    exact Option.some_ne_none 0

/-- C18: within one pose the collision test comes first.  For a footprint
`v :: rest`: if the primitive is negative on the polygon made of the first
transformed vertex alone and the origin of the pose cannot be mapped,
`footprintCost` returns `-6`; and if `footprintCost` returns `-7`, the origin
cannot be mapped and the primitive was non-negative on the only polygon
checked until then (the first vertex alone). -/
theorem footprintCost_collision_before_off_map (M : CMath α) (x y th scale : α)
    (v : Point α) (rest : List (Point α)) (cm : Costmap2D α) (wm : WorldModel α) :
    (wm.footprintCost ⟨x, y, 0⟩ [newPt x y scale (M.cos th) (M.sin th) v]
          cm.getInscribedRadius cm.getCircumscribedRadius < 0 →
        cm.worldToMap x y = none →
        footprintCost M x y th scale (v :: rest) cm (some wm) = some (-6))
      ∧ (footprintCost M x y th scale (v :: rest) cm (some wm) = some (-7) →
        cm.worldToMap x y = none
          ∧ 0 ≤ wm.footprintCost ⟨x, y, 0⟩ [newPt x y scale (M.cos th) (M.sin th) v]
              cm.getInscribedRadius cm.getCircumscribedRadius) := by
  constructor
  · intro hneg _
    simp only [footprintCost, footprintCostLoop, List.nil_append]
    rw [if_pos hneg]
  · intro h7
    simp only [footprintCost, footprintCostLoop, List.nil_append] at h7
    split_ifs at h7 with hneg
    · exact absurd (Option.some.inj h7) (by norm_num)
    · refine ⟨?_, not_lt.mp hneg⟩
      cases hmap : cm.worldToMap x y with
      | none => rfl
      | some cell =>
        exfalso
        rw [hmap] at h7
        obtain ⟨cx, cy⟩ := cell
        obtain ⟨w, hw, hcases⟩ := footprintCostLoop_mapped x y scale (M.cos th) (M.sin th)
          cm wm (cx, cy) hmap rest [newPt x y scale (M.cos th) (M.sin th) v]
          (stdMax (stdMax 0 (wm.footprintCost ⟨x, y, 0⟩
            [newPt x y scale (M.cos th) (M.sin th) v]
            cm.getInscribedRadius cm.getCircumscribedRadius)) (cm.getCost cx cy))
        simp only at h7
        rw [hw] at h7
        have hw7 : w = -7 := Option.some.inj h7
        rcases hcases with h | h
        · rw [hw7] at h; norm_num at h
        · rw [stdMax_eq_max, stdMax_eq_max, hw7] at h
          have : (0 : α) ≤ -7 :=
            le_trans (le_trans (le_max_left _ _) (le_max_left _ _)) h
          norm_num at this

/-- Witness of C18: the pose `(-1, 0, 0)` is off the sample grid and the
primitive reports a collision on the one-vertex polygon: the result is `-6`;
with a primitive that reports no collision the result is `-7`. -/
theorem footprintCost_collision_before_off_map_witness :
    ((constModel (-1) : WorldModel ℝ).footprintCost ⟨-1, 0, 0⟩
          [newPt (-1) 0 1 (Real.cos 0) (Real.sin 0) ⟨1, 0, 0⟩] 0 0 < 0
      ∧ (halfPlaneGrid (0 : ℝ)).worldToMap (-1) 0 = none
      ∧ footprintCost ⟨Real.sqrt, Real.cos, Real.sin⟩ (-1) 0 0 1 [⟨1, 0, 0⟩, ⟨0, 1, 0⟩]
          (halfPlaneGrid (0 : ℝ)) (some (constModel (-1))) = some (-6))
    ∧ (footprintCost ⟨Real.sqrt, Real.cos, Real.sin⟩ (-1) 0 0 1 [⟨1, 0, 0⟩, ⟨0, 1, 0⟩]
          (halfPlaneGrid (0 : ℝ)) (some (constModel 5)) = some (-7)
      ∧ (0 : ℝ) ≤ (constModel 5 : WorldModel ℝ).footprintCost ⟨-1, 0, 0⟩
          [newPt (-1) 0 1 (Real.cos 0) (Real.sin 0) ⟨1, 0, 0⟩] 0 0) := by
  have hneg : (constModel (-1) : WorldModel ℝ).footprintCost ⟨-1, 0, 0⟩
      [newPt (-1) 0 1 (Real.cos 0) (Real.sin 0) ⟨1, 0, 0⟩] 0 0 < 0 := by
    norm_num [constModel]
  have hmap : (halfPlaneGrid (0 : ℝ)).worldToMap (-1) 0 = none := by
    norm_num [halfPlaneGrid]
  have h7 : footprintCost ⟨Real.sqrt, Real.cos, Real.sin⟩ (-1) 0 0 1 [⟨1, 0, 0⟩, ⟨0, 1, 0⟩]
      (halfPlaneGrid (0 : ℝ)) (some (constModel 5)) = some (-7) := by
    norm_num [footprintCost, footprintCostLoop, halfPlaneGrid, constModel]
  exact ⟨⟨hneg, hmap,
    (footprintCost_collision_before_off_map ⟨Real.sqrt, Real.cos, Real.sin⟩ (-1) 0 0 1
      ⟨1, 0, 0⟩ [⟨0, 1, 0⟩] (halfPlaneGrid (0 : ℝ)) (constModel (-1))).1 hneg hmap⟩,
    h7,
    ((footprintCost_collision_before_off_map ⟨Real.sqrt, Real.cos, Real.sin⟩ (-1) 0 0 1
      ⟨1, 0, 0⟩ [⟨0, 1, 0⟩] (halfPlaneGrid (0 : ℝ)) (constModel 5)).2 h7).2⟩

/-- C19: a trajectory without poses scores `0` for every footprint, grid,
world model and parameter setting, like a collision-free trajectory in free
space; in particular it yields neither `-6` nor `-7`. -/
theorem scoreTrajectory_no_poses (M : CMath α) (self : ObstacleCostFunction α) (xv yv : α) :
    scoreTrajectory M self ⟨xv, yv, []⟩ = some 0
      ∧ scoreTrajectory M self ⟨xv, yv, []⟩ ≠ some (-6)
      ∧ scoreTrajectory M self ⟨xv, yv, []⟩ ≠ some (-7) := by
  have key : scoreTrajectory M self ⟨xv, yv, []⟩ = some 0 := rfl
  refine ⟨key, ?_, ?_⟩ <;> rw [key] <;> norm_num

/-- C20: after `setParams a b c` (`max_trans_vel = a`, `max_scaling_factor = b`,
`scaling_speed = c`) `scoreTrajectory` evaluates `footprintCost` at every
pose, in order, with the one scale `getScalingFactor traj c a b`, each result
replacing the cost (a failed evaluation ends the scoring); so a trajectory
with poses scores what `footprintCost` yields at its last pose with that
scale.  The scale is `1` if the magnitude of the velocity is at most `c` and
`1 + b * (magnitude - c) / (a - c)` otherwise.  `setParams` leaves the
footprint, the grid and both pointers as they are. -/
theorem scoreTrajectory_after_setParams (M : CMath α) (self : ObstacleCostFunction α)
    (traj : Trajectory α) (a b c : α) :
    scoreTrajectory M (self.setParams a b c) traj
        = traj.points.foldl (fun acc p => acc.bind (fun _ =>
            footprintCost M p.x p.y p.th (getScalingFactor M traj c a b)
              self.footprint_spec_ self.costmap_ self.world_model_)) (some 0)
      ∧ (∀ h : traj.points ≠ [],
          scoreTrajectory M (self.setParams a b c) traj
            = footprintCost M (traj.points.getLast h).x (traj.points.getLast h).y
                (traj.points.getLast h).th (getScalingFactor M traj c a b)
                self.footprint_spec_ self.costmap_ self.world_model_)
      ∧ getScalingFactor M traj c a b
        = (if M.sqrt (traj.xv_ * traj.xv_ + traj.yv_ * traj.yv_) ≤ c then 1
            else 1 + b * (M.sqrt (traj.xv_ * traj.xv_ + traj.yv_ * traj.yv_) - c) / (a - c))
      ∧ (self.setParams a b c).footprint_spec_ = self.footprint_spec_
      ∧ (self.setParams a b c).costmap_ = self.costmap_
      ∧ (self.setParams a b c).world_model_ = self.world_model_
      ∧ (self.setParams a b c).costmap_ros_ = self.costmap_ros_
      ∧ (self.setParams a b c).max_trans_vel_ = a
      ∧ (self.setParams a b c).max_scaling_factor_ = b
      ∧ (self.setParams a b c).scaling_speed_ = c := by
  refine ⟨?_, ?_, ?_, rfl, rfl, rfl, rfl, rfl, rfl, rfl⟩
  · unfold scoreTrajectory
    exact scoreTrajectoryLoop_eq_foldl M (self.setParams a b c) _ traj.points 0
  · intro h
    unfold scoreTrajectory
    exact scoreTrajectoryLoop_getLast M (self.setParams a b c) _ traj.points h 0
  · split_ifs with hle
    · exact getScalingFactor_of_le M traj c a b hle
    · rw [getScalingFactor_of_lt M traj c a b (not_le.mp hle), mul_div_assoc, add_comm]

/-- Witness of C20: after `setParams 1 2 (3/10)` the velocity `(1, 0)` gives
the scale `3`; the last pose `(1, 0, 0)` moves the footprint vertex `(1, 0)`
to `x = 1 + 3 * 1 = 4`, which the primitive answers, so the score is `4`
(it would be `2` with the scale `1`). -/
theorem scoreTrajectory_after_setParams_witness :
    ([⟨2, 0, 0⟩, ⟨1, 0, 0⟩] : List (Pose ℝ)) ≠ []
      ∧ getScalingFactor ⟨Real.sqrt, Real.cos, Real.sin⟩
          ⟨1, 0, [⟨2, 0, 0⟩, ⟨1, 0, 0⟩]⟩ (3 / 10) 1 2 = 3
      ∧ footprintCost ⟨Real.sqrt, Real.cos, Real.sin⟩ 1 0 0 3 [⟨1, 0, 0⟩]
          (halfPlaneGrid (0 : ℝ)) (some reachModel) = some 4
      ∧ scoreTrajectory ⟨Real.sqrt, Real.cos, Real.sin⟩
          ((sampleEvaluator [⟨1, 0, 0⟩] (0 : ℝ) (some reachModel)).setParams 1 2 (3 / 10))
          ⟨1, 0, [⟨2, 0, 0⟩, ⟨1, 0, 0⟩]⟩
        = footprintCost ⟨Real.sqrt, Real.cos, Real.sin⟩ 1 0 0
            (getScalingFactor ⟨Real.sqrt, Real.cos, Real.sin⟩
              ⟨1, 0, [⟨2, 0, 0⟩, ⟨1, 0, 0⟩]⟩ (3 / 10) 1 2)
            [⟨1, 0, 0⟩] (halfPlaneGrid (0 : ℝ)) (some reachModel) := by
  have hs : getScalingFactor ⟨Real.sqrt, Real.cos, Real.sin⟩
      ⟨1, 0, [⟨2, 0, 0⟩, ⟨1, 0, 0⟩]⟩ (3 / 10) 1 2 = 3 := by
    have hv : Real.sqrt (1 * 1 + 0 * 0) = 1 := sqrt_velocity_along_x 1 (by norm_num)
    simp only [getScalingFactor, hv]
    norm_num
  refine ⟨by simp, hs, ?_,
    (scoreTrajectory_after_setParams ⟨Real.sqrt, Real.cos, Real.sin⟩
      (sampleEvaluator [⟨1, 0, 0⟩] (0 : ℝ) (some reachModel))
      ⟨1, 0, [⟨2, 0, 0⟩, ⟨1, 0, 0⟩]⟩ 1 2 (3 / 10)).2.1 (by simp)⟩
  norm_num [footprintCost, footprintCostLoop, halfPlaneGrid, reachModel, newPt, stdMax]

end base_local_planner

namespace nav_core

/-- C17: the default four-argument `makePlan` mirrors the three-argument one:
it returns what the three-argument `makePlan` returns, leaves the plan and
the planner as that call left them, and sets `custom_status` to `OK` when the
value is `true` and to `FAIL` otherwise (so, the two constants being
different, to `OK` exactly when the value is `true`); over the default
three-argument `makePlan` it returns `false` with `custom_status = FAIL` and
the plan unchanged. -/
theorem makePlan4_mirrors_makePlan {σ P : Type} (st : status)
    (makePlan : σ → P → P → List P → σ × List P × Bool)
    (self : σ) (start goal : P) (plan : List P) (custom_status : Int) :
    (BaseGlobalPlanner.makePlan4 st makePlan self start goal plan custom_status).return_value
        = (makePlan self start goal plan).2.2
      ∧ (BaseGlobalPlanner.makePlan4 st makePlan self start goal plan custom_status).plan
        = (makePlan self start goal plan).2.1
      ∧ (BaseGlobalPlanner.makePlan4 st makePlan self start goal plan custom_status).self
        = (makePlan self start goal plan).1
      ∧ (BaseGlobalPlanner.makePlan4 st makePlan self start goal plan
            custom_status).custom_status
        = (if (makePlan self start goal plan).2.2 = true then st.OK else st.FAIL)
      ∧ (st.OK ≠ st.FAIL →
          ((BaseGlobalPlanner.makePlan4 st makePlan self start goal plan
              custom_status).custom_status = st.OK
            ↔ (makePlan self start goal plan).2.2 = true))
      ∧ BaseGlobalPlanner.makePlan4 st BaseGlobalPlanner.makePlan self start goal plan
          custom_status
        = { self := self, plan := plan, custom_status := st.FAIL, return_value := false } := by
  refine ⟨?_, ?_, ?_, ?_, ?_, rfl⟩
  all_goals
    unfold BaseGlobalPlanner.makePlan4
    rcases makePlan self start goal plan with ⟨s2, plan2, r⟩
    cases r
  all_goals simp
  · intro hne h
    exact hne h.symm

/-- Witness of C17: with `OK = 0` and `FAIL = 1` and a three-argument
`makePlan` that appends the goal to the plan and returns `true`, the status
is `OK` exactly when that value is `true`. -/
theorem makePlan4_mirrors_makePlan_witness :
    (0 : Int) ≠ 1
      ∧ ((BaseGlobalPlanner.makePlan4 ⟨0, 1⟩
            (fun (s : Unit) (_ goal : Nat) (plan : List Nat) => (s, plan ++ [goal], true))
            () 1 2 [] 5).custom_status = 0
          ↔ ((fun (s : Unit) (_ goal : Nat) (plan : List Nat) =>
              (s, plan ++ [goal], true)) () 1 2 []).2.2 = true) :=
  ⟨by decide,
   (makePlan4_mirrors_makePlan ⟨0, 1⟩
    (fun (s : Unit) (_ goal : Nat) (plan : List Nat) => (s, plan ++ [goal], true))
    () 1 2 [] 5).2.2.2.2.1 (by decide)⟩

end nav_core
